import Mathlib

/-!
Shallow embedding of jsegura/sampleworkqueue (src/main.go): a single-table
task queue on Postgres.  Rows of the `tasks` table become the `Task`
structure; each SQL statement the Go code issues becomes a Lean function on
an explicit `Store`; the unbounded Go loops (`catchup`, the consumer select
loop) take explicit fuel or an explicit event list.  Timestamps are
naturals supplied by the caller (`CURRENT_TIMESTAMP` becomes a `now`
argument).
-/

namespace SampleWorkQueue

/-- A row of the `tasks` table (CREATE TABLE in src/main.go): `id SERIAL`,
`name TEXT NOT NULL`, `payload TEXT` (nullable), `created_at TIMESTAMP`,
`executed_at TIMESTAMP` (nullable).  `executed_at = none` means pending. -/
structure Task where
  id : Int
  name : String
  payload : Option String
  created_at : Nat
  executed_at : Option Nat
deriving DecidableEq, Repr

/-- The `tasks` table together with the state of the SERIAL sequence. -/
structure Store where
  rows : List Task
  nextId : Int
deriving DecidableEq, Repr

/-- A task row is pending when its `executed_at` IS NULL. -/
def Task.pending (r : Task) : Bool := r.executed_at.isNone

/-- `SELECT id FROM tasks WHERE executed_at IS NULL FOR UPDATE SKIP LOCKED
LIMIT 1`, with the set of row locks held by concurrent transactions made
explicit: rows whose id is in `locked` are skipped.  Postgres leaves the
choice among several claimable pending rows unspecified; the model picks the
first in row order. -/
def selectPendingSkipLocked (locked : List Int) (rows : List Task) : Option Int :=
  (rows.find? (fun r => r.pending && !(locked.contains r.id))).map (fun r => r.id)

/-- The claim query exactly as `catchup` issues it: `db.QueryRow` runs the
statement in its own autocommit transaction, so no lock from any other
statement of the same process is held while it runs (the lock set is empty),
and the `FOR UPDATE` lock it takes is released when the statement ends. -/
def claimOnePending (s : Store) : Option Int :=
  selectPendingSkipLocked [] s.rows

/-- One execution of the claim statement in a multi-process interleaving:
returns the claimed id (if any) and the lock set left behind after the
statement.  Because `db.QueryRow` runs in autocommit mode, the implicit
transaction commits at statement end and the `FOR UPDATE` row lock is
released immediately: the lock set is returned unchanged. -/
def claimStmtAutocommit (locked : List Int) (s : Store) : Option Int × List Int :=
  (selectPendingSkipLocked locked s.rows, locked)

/-- The claim statement as the spec intends it: issued inside an explicit
transaction that stays open through the rest of the job, so the claimed
row's lock is retained in the lock set until that transaction commits. -/
def claimStmtInTxn (locked : List Int) (s : Store) : Option Int × List Int :=
  match selectPendingSkipLocked locked s.rows with
  | none => (none, locked)
  | some tid => (some tid, tid :: locked)

/-- `SELECT name, payload FROM tasks WHERE id = $1` scanned into the two Go
`string` variables of `doJob`: yields `none` when no row matches
(`sql.ErrNoRows`) or when the row's nullable `payload` is NULL (`Scan`
cannot convert NULL into a Go `string` and errors). -/
def scanNamePayload (rows : List Task) (taskID : Int) : Option (String × String) :=
  match rows.find? (fun r => r.id == taskID) with
  | none => none
  | some r => r.payload.map (fun p => (r.name, p))

/-- A plain read of a row's `name` and `payload` fields by id (`fetch`). -/
def fetchTask (s : Store) (taskID : Int) : Option (String × Option String) :=
  (s.rows.find? (fun r => r.id == taskID)).map (fun r => (r.name, r.payload))

/-- `UPDATE tasks SET executed_at = CURRENT_TIMESTAMP WHERE id = $1`:
every row whose id matches gets `executed_at` set to the current time;
every other row is untouched.  There is no `executed_at IS NULL` guard. -/
def markExecuted (taskID : Int) (now : Nat) (rows : List Task) : List Task :=
  rows.map (fun r => if r.id = taskID then { r with executed_at := some now } else r)

/-- `doJob` (src/main.go lines 146-162): fetch `name`/`payload` for the id;
if the scan errors, log and return without touching the store; otherwise run
the business action (the "executing task" log line) and mark the task
executed.  The Bool records whether the business action ran. -/
def doJob (now : Nat) (s : Store) (taskID : Int) : Store × Bool :=
  match scanNamePayload s.rows taskID with
  | none => (s, false)
  | some _ => ({ s with rows := markExecuted taskID now s.rows }, true)

/-- `catchup` (src/main.go lines 118-144), its unbounded `for` loop given
explicit fuel.  Returns the final store, whether the loop exited through the
no-rows branch (`sql.ErrNoRows`, "no tasks"), and how many claim attempts
(executions of the claim query) were made. -/
def catchupRun (now : Nat) : Nat → Store → Store × Bool × Nat
  | 0, s => (s, false, 0)
  | fuel + 1, s =>
    match claimOnePending s with
    | none => (s, true, 1)
    | some tid =>
      let s' := (doJob now s tid).1
      let rest := catchupRun now fuel s'
      (rest.1, rest.2.1, rest.2.2 + 1)

/-- Go `strconv.Atoi` syntax (64-bit overflow aside): an optional single
`+` or `-` sign followed by one or more ASCII digits; anything else is an
error, modelled as `none`. -/
def atoi (s : String) : Option Int :=
  match s.toList with
  | [] => none
  | c :: rest =>
    if c == '+' then
      if !rest.isEmpty && rest.all Char.isDigit then
        some (Int.ofNat ((String.mk rest).toNat!))
      else none
    else if c == '-' then
      if !rest.isEmpty && rest.all Char.isDigit then
        some (-(Int.ofNat ((String.mk rest).toNat!)))
      else none
    else if (c :: rest).all Char.isDigit then
      some (Int.ofNat ((String.mk (c :: rest)).toNat!))
    else none

/-- The three things the consumer select loop can wake up on: a notification
carrying the `Extra` payload string, a nil notification (sent by the
listener on reconnection or error), or the 10-second ticker firing. -/
inductive Event where
  | notify (extra : String)
  | nilEvent
  | tick
deriving DecidableEq, Repr

/-- Outcome of one iteration of the consumer loop: the store afterwards,
whether the notification path invoked `doJob`, and how many claim attempts
the iteration made (only a ticker catchup makes any). -/
structure StepResult where
  store : Store
  jobInvoked : Bool
  claimAttempts : Nat
deriving DecidableEq, Repr

/-- One iteration of the consumer select loop (src/main.go lines 95-115):
a nil notification is skipped (`continue`); a notification whose payload
does not parse as an int is logged and skipped (`continue`); otherwise
`doJob` runs on the parsed id; a ticker tick runs a `catchup` pass (with
the given fuel). -/
def consumerStep (now fuel : Nat) (s : Store) : Event → StepResult
  | .nilEvent => ⟨s, false, 0⟩
  | .notify extra =>
    match atoi extra with
    | none => ⟨s, false, 0⟩
    | some id => ⟨(doJob now s id).1, true, 0⟩
  | .tick =>
    let r := catchupRun now fuel s
    ⟨r.1, false, r.2.2⟩

/-- The consumer loop run over an explicit finite list of wake-ups. -/
def consumerLoop (now fuel : Nat) (s : Store) : List Event → Store
  | [] => s
  | e :: es => consumerLoop now fuel (consumerStep now fuel s e).store es

/-- `INSERT INTO tasks (name, payload) VALUES ($1, $2) RETURNING id`:
a fresh SERIAL id is assigned, `created_at` defaults to the current time,
`executed_at` starts NULL. -/
def insertTask (name payload : String) (now : Nat) (s : Store) : Int × Store :=
  (s.nextId,
   { rows := s.rows ++ [⟨s.nextId, name, some payload, now, none⟩],
     nextId := s.nextId + 1 })

/-- One publisher tick (src/main.go lines 168-175): insert a task with
name "task" and payload "payload". -/
def publisherStep (now : Nat) (s : Store) : Int × Store :=
  insertTask "task" "payload" now s

/-- What `main` does after bootstrap, depending on the `-mode` flag. -/
inductive ModeAction where
  | runConsumer
  | runPublisher
  | exitCode (code : Nat)
deriving DecidableEq, Repr

/-- Mode dispatch in `main` (src/main.go lines 71-78): after bootstrap,
"consumer" enters the consumer loop, "publisher" enters the publisher loop,
and any other mode value logs "invalid mode" and calls `os.Exit(1)`. -/
def selectMode (flagMode : String) : ModeAction :=
  if flagMode = "consumer" then .runConsumer
  else if flagMode = "publisher" then .runPublisher
  else .exitCode 1

/-- A store holding exactly one pending task, id 1, with a non-null payload. -/
def sOne : Store := ⟨[⟨1, "task", some "payload", 0, none⟩], 2⟩

/-- A store holding exactly one already-executed task, id 1, executed at 5. -/
def sDone : Store := ⟨[⟨1, "task", some "payload", 0, some 5⟩], 2⟩

/-- A store holding one pending task, id 1, whose payload is NULL. -/
def sNullPayload : Store := ⟨[⟨1, "task", none, 0, none⟩], 2⟩

/-- The empty store. -/
def sEmpty : Store := ⟨[], 1⟩

/-- No row of the store is pending. -/
def noPending (s : Store) : Prop := ∀ r ∈ s.rows, r.executed_at ≠ none

/-- SERIAL invariant: every existing row's id is below the sequence value. -/
def wellFormed (s : Store) : Prop := ∀ r ∈ s.rows, r.id < s.nextId

/-- C1: the claim query never yields the same pending task to two concurrent
callers.  This fails on the code: `catchup` issues the `SELECT ... FOR UPDATE
SKIP LOCKED` through `db.QueryRow` with no surrounding transaction, so the
row lock dies with the statement's implicit autocommit transaction.  On a
store with one pending task (id 1), dispatcher A runs the claim statement
and receives id 1; dispatcher B then runs the claim statement before A's
`doJob` UPDATE and also receives id 1.  Had the statement kept its lock
until the job's transaction ended (third conjunct), B would have received
none. -/
theorem claim_lock_released_double_yield :
    (claimStmtAutocommit [] sOne).1 = some 1 ∧
    (claimStmtAutocommit (claimStmtAutocommit [] sOne).2 sOne).1 = some 1 ∧
    (claimStmtInTxn (claimStmtInTxn [] sOne).2 sOne).1 = none := by
  decide

/-- C2 counterexample: marking task 1 executed at time 5 and then again at
time 7 does not leave `executed_at` at its first-set value 5 — the second
UPDATE overwrites it with 7, changing the stored state. -/
theorem mark_executed_twice_changes_value :
    ((markExecuted 1 7 (markExecuted 1 5 sOne.rows)).map Task.executed_at = [some 7]) ∧
    markExecuted 1 7 (markExecuted 1 5 sOne.rows) ≠ markExecuted 1 5 sOne.rows := by
  decide

/-- C2 amended: a second mark-executed call on an already-executed task
causes no error and the task stays executed, but the UPDATE has no
`executed_at IS NULL` guard, so `executed_at` is overwritten with the time
of the second call (the result is exactly as if only the second call had
run): it keeps the first-set value only when the two calls carry the same
timestamp. -/
theorem mark_executed_second_call_overwrites (rows : List Task) (tid : Int) (t1 t2 : Nat) :
    markExecuted tid t2 (markExecuted tid t1 rows) = markExecuted tid t2 rows ∧
    ∀ r ∈ markExecuted tid t2 (markExecuted tid t1 rows), r.id = tid →
      r.executed_at = some t2 := by
  have h1 : markExecuted tid t2 (markExecuted tid t1 rows) = markExecuted tid t2 rows := by
    simp only [markExecuted, List.map_map]
    congr 1
    funext r
    by_cases h : r.id = tid <;> simp [Function.comp, h]
  refine ⟨h1, ?_⟩
  rw [h1]
  intro r hr hid
  simp only [markExecuted, List.mem_map] at hr
  obtain ⟨r0, _, hEq⟩ := hr
  by_cases h : r0.id = tid
  · rw [if_pos h] at hEq
    subst hEq
    rfl
  · rw [if_neg h] at hEq
    subst hEq
    exact absurd hid h

/-- Witness for C2's amended theorem at a concrete store. -/
theorem mark_executed_second_call_overwrites_witness :
    (⟨1, "task", some "payload", 0, some 7⟩ : Task).executed_at = some 7 :=
  (mark_executed_second_call_overwrites sOne.rows 1 5 7).2
    ⟨1, "task", some "payload", 0, some 7⟩ (by decide) (by decide)

/-- C3 counterexample: `doJob` on a task that already has `executed_at` set
(id 1 in `sDone`, executed at 5, called at time 7) is not a no-op: the
business action runs (`true`) and the store changes (`executed_at` is
overwritten with 7), because `doJob` never checks `executed_at` and the
UPDATE has no pending guard. -/
theorem dojob_reexecutes_executed_cex :
    (doJob 7 sDone 1).2 = true ∧ (doJob 7 sDone 1).1 ≠ sDone := by
  decide

/-- C3 amended: if the referenced row does not exist, `doJob` leaves the
store unchanged and performs no business action (the error is only logged);
but a row that does exist with a fetchable (non-NULL) payload — including
one already executed — is re-processed: the business action runs and the
mark-executed UPDATE is issued again, overwriting `executed_at` with the
current time. -/
theorem dojob_missing_noop_executed_redone (now : Nat) (s : Store) (tid : Int) :
    (s.rows.find? (fun r => r.id == tid) = none → doJob now s tid = (s, false)) ∧
    (∀ r, s.rows.find? (fun r0 => r0.id == tid) = some r → r.payload ≠ none →
      (doJob now s tid).2 = true ∧
      (doJob now s tid).1.rows = markExecuted tid now s.rows) := by
  constructor
  · intro h
    simp [doJob, scanNamePayload, h]
  · intro r hr hp
    obtain ⟨p, hp'⟩ := Option.ne_none_iff_exists'.mp hp
    constructor <;> simp [doJob, scanNamePayload, hr, hp']

/-- Witness for C3's amended theorem: the missing-row branch on the empty
store and the already-executed branch on `sDone`. -/
theorem dojob_missing_noop_executed_redone_witness :
    doJob 7 sEmpty 1 = (sEmpty, false) ∧
    ((doJob 7 sDone 1).2 = true ∧ (doJob 7 sDone 1).1.rows = markExecuted 1 7 sDone.rows) :=
  ⟨(dojob_missing_noop_executed_redone 7 sEmpty 1).1 (by decide),
   (dojob_missing_noop_executed_redone 7 sDone 1).2
     ⟨1, "task", some "payload", 0, some 5⟩ (by decide) (by decide)⟩

/-- C4: on a store with zero pending tasks the claim query returns no row,
and a reconciliation pass makes exactly one claim attempt, leaves the store
unmodified, and terminates through the no-rows branch. -/
theorem catchup_empty_store_one_attempt (now fuel : Nat) (s : Store)
    (h : noPending s) (hf : 1 ≤ fuel) :
    claimOnePending s = none ∧ catchupRun now fuel s = (s, true, 1) := by
  have hc : claimOnePending s = none := by
    unfold claimOnePending selectPendingSkipLocked
    rw [Option.map_eq_none', List.find?_eq_none]
    intro r hr
    have hne := h r hr
    simp [Task.pending, Option.isNone_iff_eq_none, hne]
  obtain ⟨k, rfl⟩ : ∃ k, fuel = k + 1 := ⟨fuel - 1, by omega⟩
  exact ⟨hc, by simp [catchupRun, hc]⟩

/-- Witness for C4 on a store whose only task is already executed. -/
theorem catchup_empty_store_one_attempt_witness :
    claimOnePending sDone = none ∧ catchupRun 9 3 sDone = (sDone, true, 1) :=
  catchup_empty_store_one_attempt 9 3 sDone (by unfold noPending; decide) (by decide)

/-- C5: a notification whose payload does not parse as an integer is
discarded: the store is unchanged, `doJob` is not invoked, no claim attempt
is made, and running the loop on the remaining events proceeds exactly as if
the malformed event had never arrived. -/
theorem malformed_notification_discarded (now fuel : Nat) (s : Store) (extra : String)
    (h : atoi extra = none) (rest : List Event) :
    consumerStep now fuel s (.notify extra) = ⟨s, false, 0⟩ ∧
    consumerLoop now fuel s (.notify extra :: rest) = consumerLoop now fuel s rest := by
  have h1 : consumerStep now fuel s (.notify extra) = ⟨s, false, 0⟩ := by
    simp [consumerStep, h]
  exact ⟨h1, by simp [consumerLoop, h1]⟩

/-- Witness for C5 with the malformed payload "oops". -/
theorem malformed_notification_discarded_witness :
    consumerStep 4 2 sOne (.notify "oops") = ⟨sOne, false, 0⟩ ∧
    consumerLoop 4 2 sOne (.notify "oops" :: [.tick]) = consumerLoop 4 2 sOne [.tick] :=
  malformed_notification_discarded 4 2 sOne "oops" (by decide) [.tick]

/-- C7 counterexample: with a pending task in the store, a nil notification
(the listener's reconnection signal) is simply skipped: zero claim attempts,
store unchanged, no `doJob` — whereas an actual reconciliation pass on the
same store would make claim attempts and mark the task. -/
theorem nil_notification_no_catchup_cex :
    consumerStep 7 2 sOne .nilEvent = ⟨sOne, false, 0⟩ ∧
    (catchupRun 7 2 sOne).2.2 = 2 ∧ (catchupRun 7 2 sOne).1 ≠ sOne := by
  decide

/-- C7 amended: on receiving a nil notification the consumer loop just
`continue`s — no reconciliation pass runs, no claim attempt is made and the
store is untouched; gaps from a reconnection are covered only by the next
10-second ticker catchup. -/
theorem nil_notification_skipped (now fuel : Nat) (s : Store) :
    consumerStep now fuel s .nilEvent = ⟨s, false, 0⟩ := rfl

/-- If the predicate fails on all of the first list, `find?` over the
concatenation searches only the second list. -/
theorem find?_append_of_forall_false {p : Task → Bool} (l1 l2 : List Task)
    (h : ∀ r ∈ l1, p r = false) : (l1 ++ l2).find? p = l2.find? p := by
  induction l1 with
  | nil => rfl
  | cons a l ih =>
    rw [List.cons_append, List.find?_cons_of_neg]
    · exact ih fun r hr => h r (List.mem_cons_of_mem a hr)
    · simp [h a (List.mem_cons_self a l)]

/-- C6: on any store satisfying the SERIAL invariant, the publisher's insert
of `{name:"task", payload:"payload"}` followed by a fetch of the returned id
yields back exactly the inserted name and payload. -/
theorem publisher_insert_fetch_roundtrip (s : Store) (now : Nat) (h : wellFormed s) :
    fetchTask (publisherStep now s).2 (publisherStep now s).1 =
      some ("task", some "payload") := by
  unfold publisherStep insertTask fetchTask
  rw [find?_append_of_forall_false]
  · simp
  · intro r hr
    have hne : r.id ≠ s.nextId := by
      have := h r hr
      omega
    simp [hne]

/-- Witness for C6 starting from the empty store. -/
theorem publisher_insert_fetch_roundtrip_witness :
    fetchTask (publisherStep 0 sEmpty).2 (publisherStep 0 sEmpty).1 =
      some ("task", some "payload") :=
  publisher_insert_fetch_roundtrip sEmpty 0 (by unfold wellFormed; decide)

/-- The four immutable fields of a row: everything except `executed_at`. -/
def Task.base (r : Task) : Int × String × Option String × Nat :=
  (r.id, r.name, r.payload, r.created_at)

/-- A store with two pending tasks, ids 1 and 2. -/
def sTwo : Store := ⟨[⟨1, "a", some "p", 0, none⟩, ⟨2, "b", some "q", 0, none⟩], 3⟩

/-- C8: `doJob` touches nothing but `executed_at` of the targeted row: the
`id`, `name`, `payload` and `created_at` of every row are preserved
(pointwise, in order), and any row whose id differs from the target is left
entirely unchanged. -/
theorem dojob_only_executed_at (now : Nat) (s : Store) (tid : Int) (r : Task)
    (hmem : r ∈ (doJob now s tid).1.rows) (hne : r.id ≠ tid) :
    (doJob now s tid).1.rows.map Task.base = s.rows.map Task.base ∧ r ∈ s.rows := by
  cases h : scanNamePayload s.rows tid with
  | none =>
    simp only [doJob, h] at hmem ⊢
    exact ⟨trivial, hmem⟩
  | some pr =>
    simp only [doJob, h] at hmem ⊢
    constructor
    · simp only [markExecuted, List.map_map]
      congr 1
      funext r0
      by_cases h0 : r0.id = tid <;> simp [Task.base, Function.comp, h0]
    · simp only [markExecuted, List.mem_map] at hmem
      obtain ⟨r0, hr0, hEq⟩ := hmem
      by_cases h0 : r0.id = tid
      · rw [if_pos h0] at hEq
        subst hEq
        exact absurd h0 hne
      · rw [if_neg h0] at hEq
        subst hEq
        exact hr0

/-- Witness for C8: marking task 1 in a two-row store preserves row 2. -/
theorem dojob_only_executed_at_witness :
    (doJob 7 sTwo 1).1.rows.map Task.base = sTwo.rows.map Task.base ∧
      (⟨2, "b", some "q", 0, none⟩ : Task) ∈ sTwo.rows :=
  dojob_only_executed_at 7 sTwo 1 ⟨2, "b", some "q", 0, none⟩ (by decide) (by decide)

/-- C10: if the claim query selects a pending task whose fields cannot be
scanned (`scanNamePayload` fails persistently, e.g. a NULL payload), then
`doJob` returns without marking it, every `catchup` iteration re-claims the
same task, and the loop never reaches the no-rows exit: for every fuel the
pass ends with the store unchanged, the done flag false, and one claim
attempt per unit of fuel. -/
theorem null_payload_catchup_livelock (now : Nat) (s : Store) (tid : Int)
    (hclaim : claimOnePending s = some tid)
    (hscan : scanNamePayload s.rows tid = none) :
    ∀ fuel, catchupRun now fuel s = (s, false, fuel) := by
  intro fuel
  induction fuel with
  | zero => rfl
  | succ k ih =>
    simp only [catchupRun, hclaim, doJob, hscan]
    simp [ih]

/-- Witness for C10 on the store whose single pending task has NULL payload. -/
theorem null_payload_catchup_livelock_witness :
    catchupRun 0 3 sNullPayload = (sNullPayload, false, 3) :=
  null_payload_catchup_livelock 0 sNullPayload 1 (by decide) (by decide) 3

/-- C9: any `-mode` value other than "consumer" and "publisher" makes `main`
exit with status 1 after bootstrap, entering neither loop. -/
theorem invalid_mode_exits (m : String) (h1 : m ≠ "consumer") (h2 : m ≠ "publisher") :
    selectMode m = .exitCode 1 := by
  simp [selectMode, h1, h2]

/-- Witness for C9 at the concrete mode string "worker". -/
theorem invalid_mode_exits_witness : selectMode "worker" = .exitCode 1 :=
  invalid_mode_exits "worker" (by decide) (by decide)

end SampleWorkQueue
